import Mathlib

/-!
Verification development for the AIAudit risk-fusion and remediation engine.

The definitions below are a shallow embedding of the Python modules
src/remediation/mapping.py, src/remediation/generator.py and
src/scoring/risk_engine.py.  Python floats are modelled as exact rationals,
dictionaries as association lists (List (String x Q)) queried with
List.lookup, and Python sets as duplicate-free lists.  Library calls are
modelled by their semantics: re.search with a word-boundary pattern becomes
explicit word-boundary matching over character lists, the stable builtin
sorted becomes a stable insertion sort, and datetime.utcnow().isoformat()
becomes an explicit argument holding the call-time timestamp string.
-/

namespace AIAudit

/-! ### Helpers for Python builtin semantics -/

/-- Models Python min(a, b) on rationals, by cases on the order so that
it evaluates by kernel reduction. -/
def pyMin (a b : ℚ) : ℚ :=
  if a ≤ b then a else b

/-- Models Python max(a, b) on rationals, by cases on the order so that
it evaluates by kernel reduction. -/
def pyMax2 (a b : ℚ) : ℚ :=
  if b ≤ a then a else b

/-- Models the Python expression max(l) if l else d: the maximum of a list
with a default value for the empty list. -/
def pyMax (l : List ℚ) (d : ℚ) : ℚ :=
  match l with
  | [] => d
  | x :: xs => xs.foldl pyMax2 x

/-- Models Python int() applied to a nonnegative-or-negative rational:
truncation toward zero. -/
def pyInt (q : ℚ) : ℤ :=
  if q < 0 then ⌈q⌉ else ⌊q⌋

/-- Models Python round(x) on an exact value: round half to even. -/
def pyRoundHalfEven (q : ℚ) : ℤ :=
  let f := ⌊q⌋
  if q - f < 1/2 then f
  else if (1/2 : ℚ) < q - f then f + 1
  else if f % 2 = 0 then f else f + 1

/-- Models Python round(x, 3). -/
def roundTo3 (q : ℚ) : ℚ :=
  (pyRoundHalfEven (q * 1000) : ℚ) / 1000

/-- Models Python str.strip(): drop whitespace from both ends. -/
def pyStrip (s : String) : String :=
  ⟨((s.data.dropWhile Char.isWhitespace).reverse.dropWhile Char.isWhitespace).reverse⟩

/-! ### src/remediation/mapping.py -/

/-- KEYWORD_MAP: keyword phrases mapped to lists of (article, weight) pairs. -/
def KEYWORD_MAP : List (String × List (String × ℚ)) := [
  ("risk management", [("Article_9", 1.0)]),
  ("risk assessment", [("Article_9", 0.9)]),
  ("risk mitigation", [("Article_9", 0.9)]),
  ("residual risk", [("Article_9", 0.8)]),
  ("risk monitoring", [("Article_9", 0.8)]),
  ("hazard", [("Article_9", 0.6)]),
  ("safety", [("Article_9", 0.5)]),
  ("training data", [("Article_10", 1.0)]),
  ("data governance", [("Article_10", 1.0)]),
  ("data quality", [("Article_10", 0.9)]),
  ("bias", [("Article_10", 0.9), ("Article_9", 0.5)]),
  ("fairness", [("Article_10", 0.8), ("Article_9", 0.4)]),
  ("representative", [("Article_10", 0.8)]),
  ("dataset", [("Article_10", 0.7)]),
  ("annotation", [("Article_10", 0.6)]),
  ("labeling", [("Article_10", 0.6)]),
  ("data collection", [("Article_10", 0.7)]),
  ("consent", [("Article_10", 0.5)]),
  ("logging", [("Article_12", 1.0)]),
  ("audit trail", [("Article_12", 1.0)]),
  ("traceability", [("Article_12", 0.9)]),
  ("record keeping", [("Article_12", 1.0)]),
  ("log retention", [("Article_12", 0.9)]),
  ("audit", [("Article_12", 0.7)]),
  ("documentation", [("Article_12", 0.6)]),
  ("versioning", [("Article_12", 0.5)]),
  ("human oversight", [("Article_14", 1.0)]),
  ("human-in-the-loop", [("Article_14", 1.0)]),
  ("human review", [("Article_14", 0.9)]),
  ("manual review", [("Article_14", 0.8)]),
  ("override", [("Article_14", 0.8)]),
  ("intervention", [("Article_14", 0.7)]),
  ("supervision", [("Article_14", 0.7)]),
  ("escalation", [("Article_14", 0.6)]),
  ("approval", [("Article_14", 0.5)]),
  ("operator", [("Article_14", 0.4)]),
  ("accuracy", [("Article_15", 0.9)]),
  ("robustness", [("Article_15", 1.0)]),
  ("cybersecurity", [("Article_15", 1.0)]),
  ("security", [("Article_15", 0.8)]),
  ("adversarial", [("Article_15", 0.9)]),
  ("attack", [("Article_15", 0.7)]),
  ("vulnerability", [("Article_15", 0.8)]),
  ("encryption", [("Article_15", 0.6)]),
  ("integrity", [("Article_15", 0.7)]),
  ("availability", [("Article_15", 0.5)]),
  ("reliability", [("Article_15", 0.6)]),
  ("testing", [("Article_15", 0.5), ("Article_9", 0.4)]),
  ("biometric", [("Article_9", 0.8), ("Article_10", 0.6)]),
  ("facial recognition", [("Article_9", 0.9), ("Article_10", 0.7)]),
  ("law enforcement", [("Article_9", 0.9)]),
  ("critical infrastructure", [("Article_9", 0.8)]),
  ("employment", [("Article_9", 0.7), ("Article_10", 0.6)]),
  ("credit scoring", [("Article_9", 0.8), ("Article_10", 0.6)]),
  ("healthcare", [("Article_9", 0.7), ("Article_15", 0.6)]),
  ("education", [("Article_9", 0.6), ("Article_10", 0.5)]),
  ("migration", [("Article_9", 0.7)]),
  ("autonomous", [("Article_14", 0.7), ("Article_15", 0.6)])]

/-- ARTICLES: the list of all known articles. -/
def ARTICLES : List String :=
  ["Article_9", "Article_10", "Article_12", "Article_14", "Article_15"]

/-- A regex word character for the word-boundary semantics of the
patterns built in extract_keywords (ASCII fragment of the re module
\w class). -/
def isWordChar (c : Char) : Bool :=
  c.isAlphanum || c == '_'

/-- The pattern \b kw \b matches the character list text at offset i:
kw occurs at i, the character before i (if any) is not a word character,
and the character after the occurrence (if any) is not a word character.
Every keyword starts and ends with a word character, so the two \b in
the pattern built by extract_keywords reduce to exactly this. -/
def matchesAt (text kw : List Char) (i : ℕ) : Bool :=
  kw.isPrefixOf (text.drop i)
    && (i == 0 || !(isWordChar (text.getD (i - 1) ' ')))
    && (decide (text.length ≤ i + kw.length) || !(isWordChar (text.getD (i + kw.length) ' ')))

/-- re.search of the word-bounded pattern for kw in text: some offset
matches. -/
def hasKeyword (text kw : List Char) : Bool :=
  (List.range (text.length + 1)).any (fun i => matchesAt text kw i)

/-- Models text.lower() (ASCII fragment), producing the character list the
matcher scans. -/
def toLowerChars (s : String) : List Char :=
  s.data.map Char.toLower

/-- extract_keywords: the set of keyword phrases of KEYWORD_MAP that match
the lowercased text, as a duplicate-free list in table order. -/
def extract_keywords (text : String) : List String :=
  (KEYWORD_MAP.map Prod.fst).filter (fun kw => hasKeyword (toLowerChars text) kw.data)

/-- Total weight contributed by one keyword to one article: the sum of the
weights w over the (article, w) pairs of the keyword in KEYWORD_MAP.
This embeds the dictionary accumulation loop of rule_signal
(scores[article] += weight) articlewise. -/
def keywordWeightFor (kw article : String) : ℚ :=
  ((KEYWORD_MAP.lookup kw).getD []).foldl
    (fun acc p => if p.1 = article then acc + p.2 else acc) 0

/-- Raw accumulated score of one article over all matched keywords. -/
def articleRawScore (text article : String) : ℚ :=
  ((extract_keywords text).map (fun kw => keywordWeightFor kw article)).sum

/-- rule_signal: per-article normalized scores min(1.0, raw / 3.0), as an
association list over ARTICLES. -/
def rule_signal (text : String) : List (String × ℚ) :=
  ARTICLES.map (fun a => (a, pyMin 1 (articleRawScore text a / 3)))

/-- risk_multiplier of fuse_model_and_rules:
model_probs.get("high", 0.5) + 0.5 * model_probs.get("medium", 0.0). -/
def riskMultiplier (model_probs : List (String × ℚ)) : ℚ :=
  ((model_probs.lookup "high").getD 0.5) + 0.5 * ((model_probs.lookup "medium").getD 0)

/-- The fused score of one article before normalization:
alpha * (risk_multiplier * (0.5 + 0.5 * rule_score)) + (1 - alpha) * rule_score
with rule_score = rule_scores.get(article, 0.0). -/
def fusedRaw (model_probs rule_scores : List (String × ℚ)) (alpha : ℚ)
    (article : String) : ℚ :=
  let rule_score := (rule_scores.lookup article).getD 0
  let model_contribution := riskMultiplier model_probs * (0.5 + 0.5 * rule_score)
  alpha * model_contribution + (1 - alpha) * rule_score

/-- fuse_model_and_rules: fused scores over ARTICLES, divided by their
maximum when that maximum is positive.  The default of the alpha argument
in the source is 0.6. -/
def fuse_model_and_rules (model_probs rule_scores : List (String × ℚ))
    (alpha : ℚ) : List (String × ℚ) :=
  let fused_scores := ARTICLES.map
    (fun a => (a, fusedRaw model_probs rule_scores alpha a))
  let max_score := pyMax (fused_scores.map Prod.snd) 1
  if 0 < max_score then fused_scores.map (fun p => (p.1, p.2 / max_score))
  else fused_scores

/-- Stable insert for the descending sort by score of get_top_articles:
the inserted element precedes every element of smaller or equal score. -/
def insertPairDesc (a : String × ℚ) : List (String × ℚ) → List (String × ℚ)
  | [] => [a]
  | b :: l => if b.2 ≤ a.2 then a :: b :: l else b :: insertPairDesc a l

/-- Models sorted(l, key = score, reverse = True): stable descending sort. -/
def sortPairsDesc : List (String × ℚ) → List (String × ℚ)
  | [] => []
  | a :: l => insertPairDesc a (sortPairsDesc l)

/-- get_top_articles: filter by threshold, sort by score descending, keep
top_k. -/
def get_top_articles (fused_scores : List (String × ℚ)) (top_k : ℕ)
    (threshold : ℚ) : List (String × ℚ) :=
  (sortPairsDesc (fused_scores.filter (fun p => threshold ≤ p.2))).take top_k

/-! ### src/api/intake_schema.py -/

/-- Sector: industry sectors for AI deployment. -/
inductive Sector
  | hiring | credit_scoring | healthcare | education | law_enforcement
  | critical_infrastructure | insurance | social_services | recommender
  | marketing | customer_service | manufacturing | logistics | other
deriving DecidableEq

/-- The string value of a Sector member. -/
def Sector.value : Sector → String
  | .hiring => "hiring"
  | .credit_scoring => "credit_scoring"
  | .healthcare => "healthcare"
  | .education => "education"
  | .law_enforcement => "law_enforcement"
  | .critical_infrastructure => "critical_infrastructure"
  | .insurance => "insurance"
  | .social_services => "social_services"
  | .recommender => "recommender"
  | .marketing => "marketing"
  | .customer_service => "customer_service"
  | .manufacturing => "manufacturing"
  | .logistics => "logistics"
  | .other => "other"

/-- UserType: types of users affected by the AI system. -/
inductive UserType
  | general_public | employees | children | elderly | vulnerable_groups
  | professionals | consumers | patients | students
deriving DecidableEq

/-- The string value of a UserType member. -/
def UserType.value : UserType → String
  | .general_public => "general_public"
  | .employees => "employees"
  | .children => "children"
  | .elderly => "elderly"
  | .vulnerable_groups => "vulnerable_groups"
  | .professionals => "professionals"
  | .consumers => "consumers"
  | .patients => "patients"
  | .students => "students"

/-- DataType: types of data processed by the AI system. -/
inductive DataType
  | biometrics | health_data | financial_data | location_data
  | behavioral_data | political_opinions | religious_beliefs | ethnic_origin
  | sexual_orientation | criminal_records | employment_data
  | educational_records | generic_pii | anonymous_data
deriving DecidableEq

/-- The string value of a DataType member. -/
def DataType.value : DataType → String
  | .biometrics => "biometrics"
  | .health_data => "health_data"
  | .financial_data => "financial_data"
  | .location_data => "location_data"
  | .behavioral_data => "behavioral_data"
  | .political_opinions => "political_opinions"
  | .religious_beliefs => "religious_beliefs"
  | .ethnic_origin => "ethnic_origin"
  | .sexual_orientation => "sexual_orientation"
  | .criminal_records => "criminal_records"
  | .employment_data => "employment_data"
  | .educational_records => "educational_records"
  | .generic_pii => "generic_pii"
  | .anonymous_data => "anonymous_data"

/-- DecisionImpact: types of decisions influenced by the AI system. -/
inductive DecisionImpact
  | access_to_services | safety_critical | content_ranking
  | employment_decisions | credit_decisions | legal_decisions
  | educational_outcomes | health_treatment | law_enforcement_actions
  | migration_decisions | recommendations | operational_efficiency
deriving DecidableEq

/-- The string value of a DecisionImpact member. -/
def DecisionImpact.value : DecisionImpact → String
  | .access_to_services => "access_to_services"
  | .safety_critical => "safety_critical"
  | .content_ranking => "content_ranking"
  | .employment_decisions => "employment_decisions"
  | .credit_decisions => "credit_decisions"
  | .legal_decisions => "legal_decisions"
  | .educational_outcomes => "educational_outcomes"
  | .health_treatment => "health_treatment"
  | .law_enforcement_actions => "law_enforcement_actions"
  | .migration_decisions => "migration_decisions"
  | .recommendations => "recommendations"
  | .operational_efficiency => "operational_efficiency"

/-- OversightLevel: level of human oversight in the AI system. -/
inductive OversightLevel
  | fully_automated | human_in_the_loop | human_on_the_loop
  | human_override_possible | human_final_decision
deriving DecidableEq

/-- The string value of an OversightLevel member. -/
def OversightLevel.value : OversightLevel → String
  | .fully_automated => "fully_automated"
  | .human_in_the_loop => "human_in_the_loop"
  | .human_on_the_loop => "human_on_the_loop"
  | .human_override_possible => "human_override_possible"
  | .human_final_decision => "human_final_decision"

/-- DocumentationStatus: status of a documentation artifact. -/
inductive DocumentationStatus
  | not_started | in_progress | complete | needs_update
deriving DecidableEq

/-- DocumentationArtifacts: per-artifact documentation status.  The Python
field named technical_documentation is rendered here as technical_docs,
and the field named documentation on the intake form as docs. -/
structure DocumentationArtifacts where
  data_sheet : DocumentationStatus := .not_started
  model_card : DocumentationStatus := .not_started
  system_logs : DocumentationStatus := .not_started
  monitoring_dashboard : DocumentationStatus := .not_started
  risk_assessment : DocumentationStatus := .not_started
  bias_audit : DocumentationStatus := .not_started
  technical_docs : DocumentationStatus := .not_started
  user_instructions : DocumentationStatus := .not_started
deriving DecidableEq

/-- AISystemIntake: the structured intake form.  Optional free-text fields
that the scoring engine never reads (model_type, training_data_size,
deployment_environment, additional free text) are omitted; the Python
field named documentation is rendered as docs. -/
structure AISystemIntake where
  system_name : String
  system_version : String := "1.0.0"
  team_name : String
  project_owner : String
  sector : Sector
  use_case_description : String
  user_types : List UserType
  data_types : List DataType
  decision_impacts : List DecisionImpact
  oversight_level : OversightLevel
  can_users_opt_out : Bool := false
  appeal_mechanism : Bool := false
  docs : DocumentationArtifacts := {}
deriving DecidableEq

/-- RiskFactor: one contributing factor of the risk breakdown. -/
structure RiskFactor where
  factor : String
  weight : ℚ
  description : String
  article_reference : String
deriving DecidableEq

/-- ComplianceObligation: one compliance obligation. -/
structure ComplianceObligation where
  id : String
  title : String
  description : String
  priority : String
  status : String
  article_reference : String
deriving DecidableEq

/-! ### src/scoring/risk_engine.py: weight tables -/

/-- SECTOR_RISK_WEIGHTS.  The table covers every Sector member, so the
Python fallback default 0.5 of .get is unreachable and the table is a
total function. -/
def SECTOR_RISK_WEIGHTS : Sector → ℚ
  | .law_enforcement => 0.95
  | .critical_infrastructure => 0.90
  | .healthcare => 0.85
  | .credit_scoring => 0.80
  | .hiring => 0.75
  | .education => 0.70
  | .insurance => 0.70
  | .social_services => 0.75
  | .recommender => 0.40
  | .marketing => 0.30
  | .customer_service => 0.25
  | .manufacturing => 0.35
  | .logistics => 0.30
  | .other => 0.50

/-- USER_TYPE_RISK_WEIGHTS (total, fallback unreachable). -/
def USER_TYPE_RISK_WEIGHTS : UserType → ℚ
  | .children => 0.90
  | .vulnerable_groups => 0.85
  | .elderly => 0.75
  | .patients => 0.80
  | .students => 0.65
  | .general_public => 0.50
  | .employees => 0.45
  | .consumers => 0.40
  | .professionals => 0.30

/-- DATA_TYPE_RISK_WEIGHTS (total, fallback unreachable). -/
def DATA_TYPE_RISK_WEIGHTS : DataType → ℚ
  | .biometrics => 0.95
  | .health_data => 0.90
  | .criminal_records => 0.90
  | .political_opinions => 0.85
  | .religious_beliefs => 0.85
  | .ethnic_origin => 0.85
  | .sexual_orientation => 0.85
  | .financial_data => 0.70
  | .location_data => 0.60
  | .behavioral_data => 0.55
  | .employment_data => 0.50
  | .educational_records => 0.45
  | .generic_pii => 0.40
  | .anonymous_data => 0.10

/-- DECISION_IMPACT_WEIGHTS (total, fallback unreachable). -/
def DECISION_IMPACT_WEIGHTS : DecisionImpact → ℚ
  | .law_enforcement_actions => 0.95
  | .legal_decisions => 0.90
  | .migration_decisions => 0.90
  | .safety_critical => 0.90
  | .health_treatment => 0.85
  | .credit_decisions => 0.80
  | .employment_decisions => 0.75
  | .educational_outcomes => 0.70
  | .access_to_services => 0.65
  | .content_ranking => 0.40
  | .recommendations => 0.30
  | .operational_efficiency => 0.20

/-- OVERSIGHT_RISK_MODIFIERS (total, fallback unreachable). -/
def OVERSIGHT_RISK_MODIFIERS : OversightLevel → ℚ
  | .fully_automated => 1.0
  | .human_on_the_loop => 0.85
  | .human_in_the_loop => 0.70
  | .human_override_possible => 0.60
  | .human_final_decision => 0.40

/-! ### src/scoring/risk_engine.py: scoring -/

/-- compute_base_risk_score: the rule-based risk score in [0,1] together
with the list of contributing RiskFactor records. -/
def compute_base_risk_score (intake : AISystemIntake) : ℚ × List RiskFactor :=
  let sector_weight := SECTOR_RISK_WEIGHTS intake.sector
  let user_weights := intake.user_types.map USER_TYPE_RISK_WEIGHTS
  let max_user_weight := pyMax user_weights 0.5
  let data_weights := intake.data_types.map DATA_TYPE_RISK_WEIGHTS
  let max_data_weight := pyMax data_weights 0.5
  let impact_weights := intake.decision_impacts.map DECISION_IMPACT_WEIGHTS
  let max_impact_weight := pyMax impact_weights 0.5
  let oversight_modifier := OVERSIGHT_RISK_MODIFIERS intake.oversight_level
  let safeguard_reduction : ℚ :=
    (if intake.can_users_opt_out then 0.05 else 0)
      + (if intake.appeal_mechanism then 0.05 else 0)
  let factors : List RiskFactor :=
    [⟨"sector", sector_weight,
        "Sector '" ++ intake.sector.value ++ "' risk level",
        "Article 6 - High-risk classification"⟩,
     ⟨"user_types", max_user_weight,
        "Affects " ++ String.intercalate ", " (intake.user_types.map UserType.value),
        "Article 9 - Risk management for vulnerable groups"⟩,
     ⟨"data_types", max_data_weight,
        "Processes " ++ String.intercalate ", " (intake.data_types.map DataType.value),
        "Article 10 - Data governance requirements"⟩,
     ⟨"decision_impact", max_impact_weight,
        "Influences " ++ String.intercalate ", " (intake.decision_impacts.map DecisionImpact.value),
        "Article 6 - Annex III high-risk categories"⟩,
     ⟨"oversight_level", oversight_modifier,
        "Human oversight: " ++ intake.oversight_level.value,
        "Article 14 - Human oversight"⟩]
    ++ (if 0 < safeguard_reduction then
          [⟨"safeguards", -safeguard_reduction,
             "Risk reduction from opt-out/appeal mechanisms",
             "Article 14 - Human oversight safeguards"⟩]
        else [])
  let avg_base := (sector_weight + max_user_weight + max_data_weight + max_impact_weight) / 4
  let oversight_reduction := (1 - oversight_modifier) * 0.2
  let risk_score := avg_base - oversight_reduction
  let risk_score := pyMax2 0 (risk_score - safeguard_reduction)
  let escalate : Bool :=
    DataType.biometrics ∈ intake.data_types && intake.sector == Sector.law_enforcement
  let risk_score := if escalate then pyMin 1 (risk_score + 0.15) else risk_score
  let factors := factors
    ++ (if escalate then
          [⟨"prohibited_combination", 0.15,
             "Biometric identification in law enforcement context",
             "Article 5 - Prohibited AI practices"⟩]
        else [])
  (pyMin 1 (pyMax2 0 risk_score), factors)

/-- compute_documentation_gaps: names of required documentation artifacts
whose status is NOT_STARTED or NEEDS_UPDATE, plus two conditional checks
for sensitive data and full automation. -/
def compute_documentation_gaps (intake : AISystemIntake) : List String :=
  let doc := intake.docs
  let required : List (DocumentationStatus × String) :=
    [(doc.data_sheet, "Data Sheet / Data Governance Documentation"),
     (doc.model_card, "Model Card / Technical Documentation"),
     (doc.risk_assessment, "Risk Assessment Documentation"),
     (doc.technical_docs, "Technical System Documentation")]
  let gaps := (required.filter
    (fun p => p.1 == DocumentationStatus.not_started
      || p.1 == DocumentationStatus.needs_update)).map Prod.snd
  let gaps := gaps
    ++ (if (DataType.biometrics ∈ intake.data_types
            ∨ DataType.health_data ∈ intake.data_types)
          ∧ doc.bias_audit ≠ DocumentationStatus.complete then
          ["Bias Audit (required for sensitive data)"]
        else [])
  gaps
    ++ (if intake.oversight_level = OversightLevel.fully_automated
          ∧ doc.monitoring_dashboard ≠ DocumentationStatus.complete then
          ["Monitoring Dashboard (required for automated systems)"]
        else [])

/-- generate_obligations: compliance obligations derived from the final
risk score tier plus unconditional data-type and user-type triggers. -/
def generate_obligations (risk_score : ℚ) (intake : AISystemIntake) :
    List ComplianceObligation :=
  (if 0.6 ≤ risk_score then
    [⟨"OB-001", "Risk Management System",
       "Establish and maintain a risk management system throughout the AI system lifecycle",
       "high", "required", "Article 9"⟩,
     ⟨"OB-002", "Data Governance",
       "Implement data governance practices for training, validation, and testing data",
       "high", "required", "Article 10"⟩,
     ⟨"OB-003", "Technical Documentation",
       "Maintain comprehensive technical documentation demonstrating compliance",
       "high", "required", "Article 11"⟩,
     ⟨"OB-004", "Record-Keeping",
       "Implement automatic logging of events for traceability",
       "high", "required", "Article 12"⟩,
     ⟨"OB-005", "Transparency",
       "Ensure transparent operation and provide clear information to users",
       "high", "required", "Article 13"⟩,
     ⟨"OB-006", "Human Oversight",
       "Design system to allow effective human oversight",
       "high", "required", "Article 14"⟩,
     ⟨"OB-007", "Accuracy & Robustness",
       "Ensure appropriate levels of accuracy, robustness, and cybersecurity",
       "high", "required", "Article 15"⟩]
   else [])
  ++ (if 0.4 ≤ risk_score ∧ risk_score < 0.6 then
    [⟨"OB-101", "Transparency Obligations",
       "Ensure users are informed when interacting with AI system",
       "medium", "required", "Article 52"⟩,
     ⟨"OB-102", "Documentation Best Practices",
       "Maintain model cards and data sheets as best practice",
       "medium", "recommended", "Best Practice"⟩]
   else [])
  ++ (if risk_score < 0.4 then
    [⟨"OB-201", "Voluntary Code of Conduct",
       "Consider adopting voluntary codes of conduct for trustworthy AI",
       "low", "optional", "Article 69"⟩]
   else [])
  ++ (if DataType.biometrics ∈ intake.data_types then
    [⟨"OB-BIO-001", "Biometric Data Protection",
       "Implement enhanced protections for biometric data processing",
       "high", "required", "Article 6 - Annex III"⟩]
   else [])
  ++ (if UserType.children ∈ intake.user_types
        ∨ UserType.vulnerable_groups ∈ intake.user_types then
    [⟨"OB-VUL-001", "Vulnerable Population Safeguards",
       "Implement additional safeguards for vulnerable user populations",
       "high", "required", "Article 9(9)"⟩]
   else [])

/-- Stable insert for the descending sort by weight used in
generate_key_recommendations: the inserted element precedes every element
of smaller or equal weight. -/
def insertFactorDesc (a : RiskFactor) : List RiskFactor → List RiskFactor
  | [] => [a]
  | b :: l => if b.weight ≤ a.weight then a :: b :: l else b :: insertFactorDesc a l

/-- Models sorted(factors, key = weight, reverse = True): stable descending
sort. -/
def sortFactorsDesc : List RiskFactor → List RiskFactor
  | [] => []
  | a :: l => insertFactorDesc a (sortFactorsDesc l)

/-- generate_key_recommendations: at most 5 prioritized recommendation
strings. -/
def generate_key_recommendations (risk_score : ℚ) (factors : List RiskFactor)
    (gaps : List String) : List String :=
  let headline : List String :=
    if 0.8 ≤ risk_score then
      ["URGENT: This system likely falls into high-risk category. Initiate full compliance assessment immediately."]
    else if 0.6 ≤ risk_score then
      ["HIGH PRIORITY: System requires comprehensive compliance documentation and risk management procedures."]
    else if 0.4 ≤ risk_score then
      ["MODERATE: Review transparency requirements and consider implementing best practices."]
    else []
  let gap_callout : List String :=
    if gaps.isEmpty then []
    else ["Complete missing documentation: " ++ String.intercalate ", " (gaps.take 3)]
  let top_factors := (sortFactorsDesc factors).take 2
  let factor_callouts :=
    (top_factors.filter (fun f => (0.7 : ℚ) ≤ f.weight)).map
      (fun f => "Address high-risk factor: " ++ f.description)
  (headline ++ gap_callout ++ factor_callouts).take 5

/-- generate_executive_summary: templated summary text, branching on the
risk category. -/
def generate_executive_summary (intake : AISystemIntake) (risk_score : ℚ)
    (risk_category : String) (obligations : List ComplianceObligation)
    (recommendations : List String) : String :=
  let _ := risk_score
  let high_priority_count := (obligations.filter (fun o => o.priority == "high")).length
  let total_obligations := obligations.length
  let recommendation_count := recommendations.length
  if risk_category = "high_risk" then
    "**" ++ intake.system_name ++ "** has been assessed as HIGH RISK under EU AI Act criteria. "
      ++ "The system's use of " ++ intake.sector.value ++ " applications affecting "
      ++ String.intercalate ", " ((intake.user_types.take 2).map UserType.value)
      ++ " triggers mandatory compliance requirements. "
      ++ "There are " ++ toString high_priority_count
      ++ " high-priority obligations requiring immediate attention. "
      ++ "Recommend initiating formal compliance review and engaging legal counsel."
  else if risk_category = "medium_risk" then
    "**" ++ intake.system_name ++ "** has been assessed as MEDIUM RISK. "
      ++ "While not classified as high-risk under Annex III, the system should implement "
      ++ "transparency measures and documentation best practices. "
      ++ "There are " ++ toString total_obligations ++ " compliance obligations and "
      ++ toString recommendation_count
      ++ " recommended actions to improve compliance posture."
  else
    "**" ++ intake.system_name ++ "** has been assessed as LOW RISK. "
      ++ "Minimal regulatory obligations apply, but consider adopting voluntary "
      ++ "codes of conduct and maintaining basic documentation for good governance. "
      ++ "There are " ++ toString recommendation_count ++ " suggested improvements."

/-! ### src/remediation/generator.py -/

/-- One remediation entry of the template catalog.  Fields are optional
because the Python code reads every field with .get and a default. -/
structure Remediation where
  id : Option String := none
  title : Option String := none
  description : Option String := none
  urgency : Option String := none
  estimated_effort : Option String := none
deriving DecidableEq

/-- One article entry of the template catalog. -/
structure ArticleTemplate where
  name : Option String := none
  remediations : List Remediation := []
deriving DecidableEq

/-- One item of the generated remediation plan. -/
structure PlanItem where
  article : String
  article_name : String
  article_score : ℚ
  remediation_id : String
  title : String
  description : String
  urgency : String
  estimated_effort : String
  priority : ℕ
deriving DecidableEq

/-- urgency_order.get(u, 2): high 0, medium 1, low 2, anything else 2. -/
def urgency_order (u : String) : ℕ :=
  match u with
  | "high" => 0
  | "medium" => 1
  | "low" => 2
  | _ => 2

/-- The sort key of the per-article urgency sort:
urgency_order.get(x.get("urgency", "low"), 2). -/
def urgencyRank (r : Remediation) : ℕ :=
  urgency_order (r.urgency.getD "low")

/-- Stable insert for the ascending sort by urgency rank: the inserted
element precedes every element of greater or equal rank. -/
def insertRem (a : Remediation) : List Remediation → List Remediation
  | [] => [a]
  | b :: l => if urgencyRank a ≤ urgencyRank b then a :: b :: l else b :: insertRem a l

/-- Models sorted(remediations, key = urgency rank): stable ascending
sort, so high urgency comes first and ties keep catalog order. -/
def sortRems : List Remediation → List Remediation
  | [] => []
  | a :: l => insertRem a (sortRems l)

/-- Models Python max(a, b) on integers. -/
def pyMaxInt (a b : ℤ) : ℤ :=
  if b ≤ a then a else b

/-- The per-article selection of generate_remediation_plan: sort the
article catalog by urgency, then take
n_remediations = max(1, int(score * top_k)) entries. -/
def selectForArticle (tmpl : ArticleTemplate) (score : ℚ) (top_k : ℕ) :
    List Remediation :=
  (sortRems tmpl.remediations).take (pyMaxInt 1 (pyInt (score * top_k))).toNat

/-- The plan item built for one remediation entry. -/
def mkPlanItem (article article_name : String) (score : ℚ) (priority : ℕ)
    (rem : Remediation) : PlanItem :=
  { article := article
    article_name := article_name
    article_score := roundTo3 score
    remediation_id := rem.id.getD ""
    title := rem.title.getD ""
    description := pyStrip (rem.description.getD "")
    urgency := rem.urgency.getD "medium"
    estimated_effort := rem.estimated_effort.getD "Unknown"
    priority := priority }

/-- The inner loop of generate_remediation_plan over the selected
remediations of one article: append an item, advance the priority counter,
and break as soon as the counter exceeds the cap. -/
def emitRems (article article_name : String) (score : ℚ) (capN : ℕ) :
    List Remediation → ℕ → List PlanItem × ℕ
  | [], p => ([], p)
  | r :: rest, p =>
      let item := mkPlanItem article article_name score p r
      if capN < p + 1 then ([item], p + 1)
      else
        let step := emitRems article article_name score capN rest (p + 1)
        (item :: step.1, step.2)

/-- The outer loop of generate_remediation_plan over the top articles,
threading the priority counter and breaking once it exceeds
top_k * 3. -/
def buildItems (templates : List (String × ArticleTemplate)) (top_k : ℕ) :
    List (String × ℚ) → ℕ → List PlanItem
  | [], _ => []
  | (article, score) :: rest, p =>
      let tmpl := (templates.lookup article).getD {}
      let article_name := tmpl.name.getD article
      let selected := selectForArticle tmpl score top_k
      let step := emitRems article (article_name) score (top_k * 3) selected p
      if top_k * 3 < step.2 then step.1
      else step.1 ++ buildItems templates top_k rest step.2

/-- Python max(d, key = d.get) over an association list: the first key of
maximal value (ties keep the earlier key).  The Python call raises on an
empty dictionary; the empty case here returns the empty string. -/
def argmaxKey (l : List (String × ℚ)) : String :=
  match l with
  | [] => ""
  | kv :: rest => (rest.foldl (fun acc p => if acc.2 < p.2 then p else acc) kv).1

/-- Models the f-string component by which _generate_summary renders the
confidence, with round-half-even decimal rounding of the exact value. -/
def formatPercent0 (q : ℚ) : String :=
  toString (pyRoundHalfEven (q * 100)) ++ "%"

/-- _generate_summary: human-readable summary line. -/
def generateSummary (risk_level : String) (confidence : ℚ) (n_items : ℕ)
    (keywords : List String) : String :=
  let risk_desc :=
    match risk_level with
    | "high" => "significant compliance gaps requiring immediate attention"
    | "medium" => "moderate compliance considerations requiring review"
    | "low" => "generally aligned with requirements, with minor improvements suggested"
    | _ => "compliance considerations"
  let summary :=
    "Assessment indicates " ++ risk_level.toUpper ++ " risk level (confidence: "
      ++ formatPercent0 confidence ++ ") with " ++ risk_desc ++ ". Generated "
      ++ toString n_items ++ " prioritized remediation actions."
  if keywords.isEmpty then summary
  else summary ++ " Key areas identified: "
    ++ String.intercalate ", " (keywords.take 5) ++ "."

/-- The fixed disclaimer string of every generated plan. -/
def DISCLAIMER : String :=
  "This remediation plan provides heuristic guidance based on automated "
    ++ "analysis. It does not constitute legal advice and should not replace "
    ++ "consultation with qualified legal and compliance professionals. "
    ++ "The EU AI Act requirements may vary based on specific use case details "
    ++ "not captured in this assessment."

/-- The generated remediation plan. -/
structure RemediationPlan where
  summary : String
  risk_level : String
  confidence : ℚ
  matched_keywords : List String
  article_scores : List (String × ℚ)
  items : List PlanItem
  disclaimer : String
deriving DecidableEq

/-- generate_remediation_plan.  The source reads alpha (default 0.6) and
top_k_remediations (default 3) out of the configuration dictionary; they
are explicit arguments here. -/
def generate_remediation_plan (text : String)
    (model_probs : List (String × ℚ))
    (templates : List (String × ArticleTemplate))
    (alpha : ℚ) (top_k : ℕ) : RemediationPlan :=
  let keywords := extract_keywords text
  let rule_scores := rule_signal text
  let fused_scores := fuse_model_and_rules model_probs rule_scores alpha
  let top_articles := get_top_articles fused_scores ARTICLES.length 0.05
  let risk_level := argmaxKey model_probs
  let confidence := (model_probs.lookup risk_level).getD 0
  let items := (buildItems templates top_k top_articles 1).take (top_k * 3)
  { summary := generateSummary risk_level confidence items.length keywords
    risk_level := risk_level
    confidence := roundTo3 confidence
    matched_keywords := keywords
    article_scores := fused_scores.map (fun p => (p.1, roundTo3 p.2))
    items := items
    disclaimer := DISCLAIMER }

/-! ### hashlib.sha256: the hash used for assessment identifiers -/

/-- UTF-8 encoding of one character, as a list of byte values. -/
def utf8Encode (c : Char) : List ℕ :=
  let n := c.toNat
  if n < 128 then [n]
  else if n < 2048 then [192 + n / 64, 128 + n % 64]
  else if n < 65536 then
    [224 + n / 4096, 128 + (n / 64) % 64, 128 + n % 64]
  else
    [240 + n / 262144, 128 + (n / 4096) % 64, 128 + (n / 64) % 64, 128 + n % 64]

/-- UTF-8 encoding of a string (the bytes str.encode produces). -/
def strToBytes (s : String) : List ℕ :=
  s.data.flatMap utf8Encode

/-- Truncation to a 32-bit word. -/
def w32 (n : ℕ) : ℕ := n % 2 ^ 32

/-- 32-bit right rotation. -/
def rotr32 (x n : ℕ) : ℕ :=
  w32 ((x >>> n) ||| (x <<< (32 - n)))

/-- The SHA-256 round constants. -/
def sha256K : List ℕ := [
  1116352408, 1899447441, 3049323471, 3921009573,
  961987163, 1508970993, 2453635748, 2870763221,
  3624381080, 310598401, 607225278, 1426881987,
  1925078388, 2162078206, 2614888103, 3248222580,
  3835390401, 4022224774, 264347078, 604807628,
  770255983, 1249150122, 1555081692, 1996064986,
  2554220882, 2821834349, 2952996808, 3210313671,
  3336571891, 3584528711, 113926993, 338241895,
  666307205, 773529912, 1294757372, 1396182291,
  1695183700, 1986661051, 2177026350, 2456956037,
  2730485921, 2820302411, 3259730800, 3345764771,
  3516065817, 3600352804, 4094571909, 275423344,
  430227734, 506948616, 659060556, 883997877,
  958139571, 1322822218, 1537002063, 1747873779,
  1955562222, 2024104815, 2227730452, 2361852424,
  2428436474, 2756734187, 3204031479, 3329325298]

/-- The SHA-256 initial hash state. -/
def sha256H0 : List ℕ := [
  1779033703, 3144134277, 1013904242, 2773480762,
  1359893119, 2600822924, 528734635, 1541459225]

/-- SHA-256 padding: append 0x80, zero bytes to 56 mod 64, and the
bit length as 8 big-endian bytes. -/
def sha256Pad (msg : List ℕ) : List ℕ :=
  let L := msg.length
  let zeros := (64 + 56 - ((L + 1) % 64)) % 64
  msg ++ [128] ++ List.replicate zeros 0
    ++ (List.range 8).map (fun i => ((8 * L) >>> (8 * (7 - i))) % 256)

/-- Big-endian grouping of bytes into 32-bit words. -/
def bytesToWords : List ℕ → List ℕ
  | a :: b :: c :: d :: rest =>
      (a * 2 ^ 24 + b * 2 ^ 16 + c * 2 ^ 8 + d) :: bytesToWords rest
  | _ => []

/-- Grouping of a word list into 16-word blocks. -/
def chunkWords : List ℕ → List (List ℕ)
  | [] => []
  | x :: rest => (x :: rest.take 15) :: chunkWords (rest.drop 15)
termination_by l => l.length
decreasing_by simp [List.length_drop]; omega

/-- The SHA-256 message schedule: extend a 16-word block to 64 words. -/
def sha256Schedule (block : List ℕ) : List ℕ :=
  (List.range 48).foldl
    (fun w _ =>
      let n := w.length
      let s0 :=
        (rotr32 (w.getD (n - 15) 0) 7) ^^^ (rotr32 (w.getD (n - 15) 0) 18)
          ^^^ ((w.getD (n - 15) 0) >>> 3)
      let s1 :=
        (rotr32 (w.getD (n - 2) 0) 17) ^^^ (rotr32 (w.getD (n - 2) 0) 19)
          ^^^ ((w.getD (n - 2) 0) >>> 10)
      w ++ [w32 (s1 + w.getD (n - 7) 0 + s0 + w.getD (n - 16) 0)])
    block

/-- One round of the SHA-256 compression function. -/
def sha256Round (st : List ℕ) (kw : ℕ × ℕ) : List ℕ :=
  match st with
  | [a, b, c, d, e, f, g, h] =>
      let S1 := (rotr32 e 6) ^^^ (rotr32 e 11) ^^^ (rotr32 e 25)
      let ch := (e &&& f) ^^^ ((2 ^ 32 - 1 - e) &&& g)
      let t1 := w32 (h + S1 + ch + kw.1 + kw.2)
      let S0 := (rotr32 a 2) ^^^ (rotr32 a 13) ^^^ (rotr32 a 22)
      let maj := (a &&& b) ^^^ (a &&& c) ^^^ (b &&& c)
      let t2 := w32 (S0 + maj)
      [w32 (t1 + t2), a, b, c, w32 (d + t1), e, f, g]
  | _ => st

/-- Processing of one block: 64 compression rounds, then the Davies-Meyer
addition of the previous state. -/
def sha256Block (h : List ℕ) (block : List ℕ) : List ℕ :=
  let ws := sha256Schedule block
  let st := (sha256K.zip ws).foldl sha256Round h
  (h.zip st).map (fun p => w32 (p.1 + p.2))

/-- The SHA-256 digest of a byte list, as 32 bytes. -/
def sha256Bytes (msg : List ℕ) : List ℕ :=
  let blocks := chunkWords (bytesToWords (sha256Pad msg))
  (blocks.foldl sha256Block sha256H0).flatMap
    (fun x => [(x >>> 24) % 256, (x >>> 16) % 256, (x >>> 8) % 256, x % 256])

/-- One lowercase hexadecimal digit. -/
def hexDigit (n : ℕ) : Char :=
  "0123456789abcdef".data.getD n '0'

/-- hashlib.sha256(s.encode()).hexdigest(): the digest as 64 lowercase
hexadecimal characters. -/
def sha256Hex (s : String) : String :=
  ⟨(sha256Bytes (strToBytes s)).flatMap (fun b => [hexDigit (b / 16), hexDigit (b % 16)])⟩

/-! ### src/scoring/risk_engine.py: assess_intake_form -/

/-- IntakeAssessmentResponse: the full assessment response. -/
structure IntakeAssessmentResponse where
  risk_score : ℚ
  risk_category : String
  risk_label : String
  risk_factors : List RiskFactor
  obligations : List ComplianceObligation
  documentation_gaps : List String
  key_recommendations : List String
  remediation_items : List PlanItem
  assessment_id : String
  assessment_timestamp : String
  model_version : String
  executive_summary : String
deriving DecidableEq

/-- The final score of assess_intake_form: rule score, or the fixed blend
0.4 * ml + 0.6 * rule when an ML scalar is supplied. -/
def finalScore (intake : AISystemIntake) (ml_risk_score : Option ℚ) : ℚ :=
  let rule_score := (compute_base_risk_score intake).1
  match ml_risk_score with
  | some ml => 0.4 * ml + 0.6 * rule_score
  | none => rule_score

/-- The category and label thresholds of assess_intake_form. -/
def categorize (final_score : ℚ) : String × String :=
  if 0.6 ≤ final_score then
    ("high_risk", "High Risk - Mandatory Compliance Required")
  else if 0.4 ≤ final_score then
    ("medium_risk", "Medium Risk - Compliance Recommended")
  else
    ("low_risk", "Low Risk - Minimal Obligations")

/-- assess_intake_form.  The call datetime.utcnow().isoformat() is
modelled by the explicit argument now, holding the timestamp string
observed at call time; the assessment identifier hashes
system_name ++ system_version ++ now exactly as the source does. -/
def assess_intake_form (intake : AISystemIntake) (ml_risk_score : Option ℚ)
    (remediation_items : Option (List PlanItem)) (now : String) :
    IntakeAssessmentResponse :=
  let factors := (compute_base_risk_score intake).2
  let final_score := finalScore intake ml_risk_score
  let cat := categorize final_score
  let documentation_gaps := compute_documentation_gaps intake
  let obligations := generate_obligations final_score intake
  let recommendations :=
    generate_key_recommendations final_score factors documentation_gaps
  let executive_summary :=
    generate_executive_summary intake final_score cat.1 obligations recommendations
  let assessment_id :=
    (sha256Hex (intake.system_name ++ intake.system_version ++ now)).take 12
  { risk_score := roundTo3 final_score
    risk_category := cat.1
    risk_label := cat.2
    risk_factors := factors
    obligations := obligations
    documentation_gaps := documentation_gaps
    key_recommendations := recommendations
    remediation_items := remediation_items.getD []
    assessment_id := assessment_id
    assessment_timestamp := now
    model_version := "1.0.0"
    executive_summary := executive_summary }

/-- The assessment response with the two call-time-derived fields
(assessment_id and assessment_timestamp) removed. -/
structure TimelessResponse where
  risk_score : ℚ
  risk_category : String
  risk_label : String
  risk_factors : List RiskFactor
  obligations : List ComplianceObligation
  documentation_gaps : List String
  key_recommendations : List String
  remediation_items : List PlanItem
  model_version : String
  executive_summary : String
deriving DecidableEq

/-- Forget the call-time-derived fields of a response. -/
def stripTemporal (r : IntakeAssessmentResponse) : TimelessResponse :=
  { risk_score := r.risk_score
    risk_category := r.risk_category
    risk_label := r.risk_label
    risk_factors := r.risk_factors
    obligations := r.obligations
    documentation_gaps := r.documentation_gaps
    key_recommendations := r.key_recommendations
    remediation_items := r.remediation_items
    model_version := r.model_version
    executive_summary := r.executive_summary }

/-! ### Basic lemmas about the Python-semantics helpers -/

theorem pyMin_eq (a b : ℚ) : pyMin a b = min a b := by
  unfold pyMin
  split_ifs with h
  · exact (min_eq_left h).symm
  · exact (min_eq_right (le_of_not_le h)).symm

theorem pyMax2_eq (a b : ℚ) : pyMax2 a b = max a b := by
  unfold pyMax2
  split_ifs with h
  · exact (max_eq_left h).symm
  · exact (max_eq_right (le_of_not_le h)).symm

theorem foldl_pyMax2_eq (l : List ℚ) (i : ℚ) :
    l.foldl pyMax2 i = l.foldl max i := by
  induction l generalizing i with
  | nil => rfl
  | cons x xs ih => simp [List.foldl_cons, pyMax2_eq, ih]

theorem le_foldl_max_init (l : List ℚ) (i : ℚ) : i ≤ l.foldl max i := by
  induction l generalizing i with
  | nil => exact le_refl i
  | cons x xs ih => exact le_trans (le_max_left i x) (ih (max i x))

theorem le_foldl_max_of_mem {x : ℚ} {l : List ℚ} (h : x ∈ l) (i : ℚ) :
    x ≤ l.foldl max i := by
  induction l generalizing i with
  | nil => cases h
  | cons y ys ih =>
      rcases List.mem_cons.mp h with rfl | hmem
      · exact le_trans (le_max_right i x) (le_foldl_max_init ys (max i x))
      · exact ih hmem (max i y)

theorem foldl_max_mem (l : List ℚ) (i : ℚ) :
    l.foldl max i = i ∨ l.foldl max i ∈ l := by
  induction l generalizing i with
  | nil => exact Or.inl rfl
  | cons x xs ih =>
      rcases ih (max i x) with h | h
      · rcases max_choice i x with hc | hc
        · exact Or.inl (by rw [List.foldl_cons, h, hc])
        · exact Or.inr (by rw [List.foldl_cons, h, hc]; exact List.mem_cons_self x xs)
      · exact Or.inr (List.mem_cons_of_mem x h)

theorem le_pyMax_of_mem {x : ℚ} {l : List ℚ} (h : x ∈ l) (d : ℚ) :
    x ≤ pyMax l d := by
  match l, h with
  | y :: ys, h =>
      rw [show pyMax (y :: ys) d = ys.foldl max y from by
        simp [pyMax, foldl_pyMax2_eq]]
      rcases List.mem_cons.mp h with rfl | hmem
      · exact le_foldl_max_init ys x
      · exact le_foldl_max_of_mem hmem y

theorem pyMax_mem {l : List ℚ} (h : l ≠ []) (d : ℚ) : pyMax l d ∈ l := by
  match l, h with
  | y :: ys, _ =>
      rw [show pyMax (y :: ys) d = ys.foldl max y from by
        simp [pyMax, foldl_pyMax2_eq]]
      rcases foldl_max_mem ys y with h | h
      · rw [h]; exact List.mem_cons_self y ys
      · exact List.mem_cons_of_mem y h

/-! ### Claim C1: the fusion formula -/

/-- The per-article fused value asserted by the specification text, written
from the spec for comparison with the source embedding: the blend
alpha * m * (0.5 + 0.5 * rule a) + (1 - alpha) * rule a with
m = P(high) + 0.5 * P(medium). -/
def specFusedValue (ph pm : ℚ) (rule : String → ℚ) (alpha : ℚ) (a : String) : ℚ :=
  alpha * ((ph + 0.5 * pm) * (0.5 + 0.5 * rule a)) + (1 - alpha) * rule a

/-- C1: when the model probability mapping defines P(high) and P(medium),
the fusion returns, for each known article, the spec formula value, divided
by the maximum such value over the five articles whenever that maximum is
positive. -/
theorem fuse_matches_spec_formula
    (model_probs rule_scores : List (String × ℚ)) (alpha ph pm : ℚ)
    (hh : model_probs.lookup "high" = some ph)
    (hm : model_probs.lookup "medium" = some pm)
    (a : String) (ha : a ∈ ARTICLES) :
    (fuse_model_and_rules model_probs rule_scores alpha).lookup a =
      some
        (if 0 < pyMax (ARTICLES.map
              (specFusedValue ph pm (fun x => (rule_scores.lookup x).getD 0) alpha)) 1
         then
           specFusedValue ph pm (fun x => (rule_scores.lookup x).getD 0) alpha a
             / pyMax (ARTICLES.map
                 (specFusedValue ph pm (fun x => (rule_scores.lookup x).getD 0) alpha)) 1
         else
           specFusedValue ph pm (fun x => (rule_scores.lookup x).getD 0) alpha a) := by
  have hF : ∀ x, fusedRaw model_probs rule_scores alpha x =
      specFusedValue ph pm (fun x => (rule_scores.lookup x).getD 0) alpha x := by
    intro x
    simp [fusedRaw, riskMultiplier, specFusedValue, hh, hm]
  have hmap : ARTICLES.map (fun x => (x, fusedRaw model_probs rule_scores alpha x)) =
      ARTICLES.map (fun x =>
        (x, specFusedValue ph pm (fun x => (rule_scores.lookup x).getD 0) alpha x)) :=
    List.map_congr_left (fun x _ => by rw [hF])
  have hvals : (ARTICLES.map (fun x =>
        (x, specFusedValue ph pm (fun x => (rule_scores.lookup x).getD 0) alpha x))).map
          Prod.snd =
      ARTICLES.map (specFusedValue ph pm (fun x => (rule_scores.lookup x).getD 0) alpha) := by
    rw [List.map_map]; rfl
  simp only [fuse_model_and_rules]
  rw [hmap, hvals]
  fin_cases ha <;>
    simp only [ARTICLES, List.map_cons, List.map_nil] <;>
    split_ifs <;> rfl

/-- Witness for C1 at a concrete input. -/
theorem fuse_matches_spec_formula_witness :
    ([(("high" : String), (1 : ℚ)), ("medium", 0)].lookup "high" = some 1)
    ∧ ([(("high" : String), (1 : ℚ)), ("medium", 0)].lookup "medium" = some 0)
    ∧ ("Article_9" ∈ ARTICLES)
    ∧ (fuse_model_and_rules [("high", 1), ("medium", 0)] [] 1).lookup "Article_9" =
      some
        (if 0 < pyMax (ARTICLES.map
              (specFusedValue 1 0 (fun x => (([] : List (String × ℚ)).lookup x).getD 0) 1)) 1
         then
           specFusedValue 1 0 (fun x => (([] : List (String × ℚ)).lookup x).getD 0) 1 "Article_9"
             / pyMax (ARTICLES.map
                 (specFusedValue 1 0 (fun x => (([] : List (String × ℚ)).lookup x).getD 0) 1)) 1
         else
           specFusedValue 1 0 (fun x => (([] : List (String × ℚ)).lookup x).getD 0) 1 "Article_9") :=
  ⟨rfl, rfl, by decide,
    fuse_matches_spec_formula [("high", 1), ("medium", 0)] [] 1 1 0 rfl rfl
      "Article_9" (by decide)⟩

/-! ### Claim C2: bounds and normalization of the fused vector -/

theorem lookup_some_mem {β : Type} {l : List (String × β)} {k : String} {v : β}
    (h : l.lookup k = some v) : (k, v) ∈ l := by
  induction l with
  | nil => simp [List.lookup] at h
  | cons p rest ih =>
      obtain ⟨k1, v1⟩ := p
      by_cases hk : k == k1
      · simp only [List.lookup, hk, if_pos] at h
        obtain rfl : v1 = v := Option.some.inj h
        exact (eq_of_beq hk) ▸ List.mem_cons_self _ _
      · simp only [List.lookup, hk, Bool.false_eq_true, if_neg] at h
        exact List.mem_cons_of_mem _ (ih h)

theorem riskMultiplier_nonneg {model_probs : List (String × ℚ)}
    (hm : ∀ p ∈ model_probs, 0 ≤ p.2) : 0 ≤ riskMultiplier model_probs := by
  unfold riskMultiplier
  have h1 : 0 ≤ (model_probs.lookup "high").getD 0.5 := by
    cases h : model_probs.lookup "high" with
    | none => norm_num
    | some v => exact hm _ (lookup_some_mem h)
  have h2 : 0 ≤ (model_probs.lookup "medium").getD 0 := by
    cases h : model_probs.lookup "medium" with
    | none => norm_num
    | some v => exact hm _ (lookup_some_mem h)
  positivity

theorem fusedRaw_nonneg {model_probs rule_scores : List (String × ℚ)} {alpha : ℚ}
    (hα0 : 0 ≤ alpha) (hα1 : alpha ≤ 1)
    (hm : ∀ p ∈ model_probs, 0 ≤ p.2)
    (hr : ∀ p ∈ rule_scores, 0 ≤ p.2)
    (a : String) : 0 ≤ fusedRaw model_probs rule_scores alpha a := by
  unfold fusedRaw
  have hrm := riskMultiplier_nonneg hm
  have hra : 0 ≤ (rule_scores.lookup a).getD 0 := by
    cases h : rule_scores.lookup a with
    | none => norm_num
    | some v => exact hr _ (lookup_some_mem h)
  have h1α : (0:ℚ) ≤ 1 - alpha := by linarith
  have hmc : 0 ≤ riskMultiplier model_probs * (0.5 + 0.5 * (rule_scores.lookup a).getD 0) := by
    apply mul_nonneg hrm
    linarith
  exact add_nonneg (mul_nonneg hα0 hmc) (mul_nonneg h1α hra)

/-- C2: on probability-and-score inputs (blend weight in [0,1] and
nonnegative mapping values), every fused value lies in [0,1]; the maximum
returned value is exactly 1 whenever some pre-normalization fused value is
nonzero; and when every pre-normalization fused value is zero the all-zero
vector is returned unchanged. -/
theorem fuse_bounds_and_normalization
    (model_probs rule_scores : List (String × ℚ)) (alpha : ℚ)
    (hα0 : 0 ≤ alpha) (hα1 : alpha ≤ 1)
    (hm : ∀ p ∈ model_probs, 0 ≤ p.2)
    (hr : ∀ p ∈ rule_scores, 0 ≤ p.2) :
    (∀ p ∈ fuse_model_and_rules model_probs rule_scores alpha, 0 ≤ p.2 ∧ p.2 ≤ 1)
    ∧ ((∃ a ∈ ARTICLES, fusedRaw model_probs rule_scores alpha a ≠ 0) →
        pyMax ((fuse_model_and_rules model_probs rule_scores alpha).map Prod.snd) 1 = 1)
    ∧ ((∀ a ∈ ARTICLES, fusedRaw model_probs rule_scores alpha a = 0) →
        fuse_model_and_rules model_probs rule_scores alpha =
          ARTICLES.map (fun a => (a, 0))) := by
  have hF0 : ∀ a, 0 ≤ fusedRaw model_probs rule_scores alpha a :=
    fusedRaw_nonneg hα0 hα1 hm hr
  set F := fusedRaw model_probs rule_scores alpha with hFdef
  set raw := ARTICLES.map (fun a => (a, F a)) with hraw
  set vals := ARTICLES.map F with hvals
  have hsnd : raw.map Prod.snd = vals := by
    rw [hraw, hvals, List.map_map]; rfl
  have hvne : vals ≠ [] := by rw [hvals]; simp [ARTICLES]
  set M := pyMax vals 1 with hM
  have hfuse : fuse_model_and_rules model_probs rule_scores alpha =
      if 0 < M then raw.map (fun p => (p.1, p.2 / M)) else raw := by
    simp only [fuse_model_and_rules, hraw, hsnd, hM]
  have hvalmem : ∀ v ∈ vals, 0 ≤ v := by
    intro v hv
    rw [hvals] at hv
    obtain ⟨a, _, rfl⟩ := List.mem_map.mp hv
    exact hF0 a
  by_cases hpos : 0 < M
  · rw [hfuse, if_pos hpos]
    refine ⟨?_, fun _ => ?_, fun hz => ?_⟩
    · intro p hp
      obtain ⟨q, hq, rfl⟩ := List.mem_map.mp hp
      obtain ⟨a, _, rfl⟩ := List.mem_map.mp (hraw ▸ hq)
      constructor
      · exact div_nonneg (hF0 a) hpos.le
      · rw [div_le_one hpos]
        exact le_pyMax_of_mem (hsnd ▸ List.mem_map_of_mem Prod.snd hq) 1
    · have hmapsnd : ((raw.map (fun p => (p.1, p.2 / M))).map Prod.snd) =
          vals.map (fun v => v / M) := by
        rw [← hsnd, List.map_map, List.map_map]; rfl
      rw [hmapsnd]
      have h1mem : (1:ℚ) ∈ vals.map (fun v => v / M) := by
        refine List.mem_map.mpr ⟨M, pyMax_mem hvne 1, div_self hpos.ne.symm⟩
      have hub : ∀ w ∈ vals.map (fun v => v / M), w ≤ 1 := by
        intro w hw
        obtain ⟨v, hv, rfl⟩ := List.mem_map.mp hw
        rw [div_le_one hpos]
        exact le_pyMax_of_mem hv 1
      have hne2 : vals.map (fun v => v / M) ≠ [] := by
        intro h
        exact hvne (List.map_eq_nil_iff.mp h)
      exact le_antisymm (hub _ (pyMax_mem hne2 1)) (le_pyMax_of_mem h1mem 1)
    · exfalso
      have h1 : M ∈ vals := pyMax_mem hvne 1
      have h3 : M = 0 := by
        rw [hvals] at h1
        obtain ⟨a, ha, hEq⟩ := List.mem_map.mp h1
        rw [← hEq]
        exact hz a ha
      rw [h3] at hpos
      exact absurd hpos (by norm_num)
  · rw [hfuse, if_neg hpos]
    have hMle : M ≤ 0 := not_lt.mp hpos
    have hallz : ∀ v ∈ vals, v = 0 := by
      intro v hv
      have h1 := hvalmem v hv
      have h2 : v ≤ M := le_pyMax_of_mem hv 1
      linarith
    refine ⟨?_, fun hex => ?_, fun hz => ?_⟩
    · intro p hp
      obtain ⟨a, _, rfl⟩ := List.mem_map.mp (hraw ▸ hp)
      have : F a = 0 := hallz _ (hvals ▸ List.mem_map_of_mem F (by assumption))
      simp [this]
    · exfalso
      obtain ⟨a, ha, hne⟩ := hex
      exact hne (hallz _ (hvals ▸ List.mem_map_of_mem F ha))
    · rw [hraw]
      exact List.map_congr_left (fun a ha => by rw [hz a ha])

/-- Witness for C2 at a concrete input. -/
theorem fuse_bounds_and_normalization_witness :
    ((0:ℚ) ≤ 1) ∧ ((1:ℚ) ≤ 1)
    ∧ (∀ p ∈ [(("high" : String), (1:ℚ))], 0 ≤ p.2)
    ∧ (∀ p ∈ ([] : List (String × ℚ)), 0 ≤ p.2)
    ∧ ((∀ p ∈ fuse_model_and_rules [("high", 1)] [] 1, 0 ≤ p.2 ∧ p.2 ≤ 1)
      ∧ ((∃ a ∈ ARTICLES, fusedRaw [("high", 1)] [] 1 a ≠ 0) →
          pyMax ((fuse_model_and_rules [("high", 1)] [] 1).map Prod.snd) 1 = 1)
      ∧ ((∀ a ∈ ARTICLES, fusedRaw [("high", 1)] [] 1 a = 0) →
          fuse_model_and_rules [("high", 1)] [] 1 =
            ARTICLES.map (fun a => (a, 0)))) :=
  ⟨zero_le_one, le_refl 1,
    fun p hp => by
      rcases List.mem_singleton.mp hp with rfl
      exact zero_le_one,
    fun p hp => absurd hp (List.not_mem_nil p),
    fuse_bounds_and_normalization [("high", 1)] [] 1 zero_le_one (le_refl 1)
      (fun p hp => by
        rcases List.mem_singleton.mp hp with rfl
        exact zero_le_one)
      (fun p hp => absurd hp (List.not_mem_nil p))⟩

/-! ### Claim C9: the rule signal -/

theorem foldl_weight_nonneg (l : List (String × ℚ)) (a : String)
    (h : ∀ p ∈ l, 0 ≤ p.2) :
    ∀ c : ℚ, 0 ≤ c →
      0 ≤ l.foldl (fun acc p => if p.1 = a then acc + p.2 else acc) c := by
  induction l with
  | nil => exact fun c hc => hc
  | cons p rest ih =>
      intro c hc
      rw [List.foldl_cons]
      refine ih (fun q hq => h q (List.mem_cons_of_mem p hq)) _ ?_
      split_ifs
      · exact add_nonneg hc (h p (List.mem_cons_self p rest))
      · exact hc

theorem KEYWORD_MAP_weights_nonneg :
    ∀ e ∈ KEYWORD_MAP, ∀ p ∈ e.2, 0 ≤ p.2 := by
  intro e he
  fin_cases he <;> intro p hp <;> fin_cases hp <;> norm_num

theorem keywordWeightFor_nonneg (kw a : String) : 0 ≤ keywordWeightFor kw a := by
  unfold keywordWeightFor
  cases h : KEYWORD_MAP.lookup kw with
  | none => simp
  | some l =>
      refine foldl_weight_nonneg l a ?_ 0 (le_refl 0)
      exact KEYWORD_MAP_weights_nonneg (kw, l) (lookup_some_mem h)

theorem articleRawScore_nonneg (text a : String) : 0 ≤ articleRawScore text a := by
  unfold articleRawScore
  refine List.sum_nonneg ?_
  intro x hx
  obtain ⟨kw, _, rfl⟩ := List.mem_map.mp hx
  exact keywordWeightFor_nonneg kw a

/-- C9: for every text the rule signal carries exactly the five known
articles; each score equals min(1, sum of matched keyword weights for the
article divided by 3) and lies in [0,1]; each matched phrase is counted at
most once; empty text matches nothing; and keyword-free text yields the
all-zero vector. -/
theorem rule_signal_shape (text : String) :
    ((rule_signal text).map Prod.fst = ARTICLES)
    ∧ (∀ a ∈ ARTICLES, (rule_signal text).lookup a =
        some (pyMin 1
          (((extract_keywords text).map (fun kw => keywordWeightFor kw a)).sum / 3)))
    ∧ (∀ p ∈ rule_signal text, 0 ≤ p.2 ∧ p.2 ≤ 1)
    ∧ (extract_keywords text).Nodup
    ∧ (extract_keywords "" = [])
    ∧ (extract_keywords text = [] →
        rule_signal text = ARTICLES.map (fun a => (a, 0))) := by
  refine ⟨rfl, ?_, ?_, ?_, by decide, ?_⟩
  · intro a ha
    fin_cases ha <;> rfl
  · intro p hp
    simp only [rule_signal] at hp
    obtain ⟨a, _, rfl⟩ := List.mem_map.mp hp
    have h0 : (0:ℚ) ≤ articleRawScore text a / 3 := by
      have := articleRawScore_nonneg text a
      positivity
    constructor
    · unfold pyMin
      split_ifs with h
      · norm_num
      · exact h0
    · unfold pyMin
      split_ifs with h
      · exact le_refl 1
      · exact le_of_not_le h
  · have hkeys : (KEYWORD_MAP.map Prod.fst).Nodup := by decide
    exact List.Nodup.filter _ hkeys
  · intro h
    have hz : ∀ a, articleRawScore text a = 0 := by
      intro a
      simp [articleRawScore, h]
    simp only [rule_signal]
    refine List.map_congr_left (fun a _ => ?_)
    rw [hz a]
    norm_num [pyMin]

/-- Witness for C9 at the empty text, discharging the keyword-free
hypothesis of the last conjunct. -/
theorem rule_signal_shape_witness :
    extract_keywords "" = []
    ∧ rule_signal "" = ARTICLES.map (fun a => (a, 0)) :=
  ⟨by decide, (rule_signal_shape "").2.2.2.2.2 (by decide)⟩

/-! ### Claim C10: defaults for a missing model signal -/

/-- C10: a missing "high" entry is read as 0.5 and a missing "medium"
entry as 0.0; for the empty probability mapping the risk multiplier is
0.5; and with the empty mapping and all-zero rule scores every article's
pre-normalization fused score is strictly positive for any positive blend
weight (the configured default is 0.6). -/
theorem fuse_missing_model_defaults :
    (∀ model_probs : List (String × ℚ), model_probs.lookup "high" = none →
      riskMultiplier model_probs = 0.5 + 0.5 * ((model_probs.lookup "medium").getD 0))
    ∧ riskMultiplier [] = 0.5
    ∧ (∀ (rule_scores : List (String × ℚ)) (alpha : ℚ) (a : String),
        0 < alpha → a ∈ ARTICLES →
        (∀ x ∈ ARTICLES, (rule_scores.lookup x).getD 0 = 0) →
        0 < fusedRaw [] rule_scores alpha a) := by
  refine ⟨?_, by norm_num [riskMultiplier, List.lookup], ?_⟩
  · intro model_probs hh
    simp [riskMultiplier, hh]
  · intro rule_scores alpha a hα ha hz
    have hra : (rule_scores.lookup a).getD 0 = 0 := hz a ha
    have hrm : riskMultiplier [] = 0.5 := by norm_num [riskMultiplier, List.lookup]
    simp only [fusedRaw, hra, hrm]
    nlinarith

/-- Witness for C10 at a concrete input. -/
theorem fuse_missing_model_defaults_witness :
    (0 : ℚ) < 1
    ∧ ("Article_9" ∈ ARTICLES)
    ∧ (∀ x ∈ ARTICLES, (([] : List (String × ℚ)).lookup x).getD 0 = 0)
    ∧ 0 < fusedRaw [] [] 1 "Article_9" :=
  ⟨one_pos, by decide, fun x _ => rfl,
    fuse_missing_model_defaults.2.2 [] 1 "Article_9" one_pos (by decide)
      (fun x _ => rfl)⟩

/-! ### Claim C5: the global item cap -/

/-- C5: a generated plan never contains more than 3 * top_k items. -/
theorem plan_items_cap (text : String) (model_probs : List (String × ℚ))
    (templates : List (String × ArticleTemplate)) (alpha : ℚ) (top_k : ℕ) :
    (generate_remediation_plan text model_probs templates alpha top_k).items.length
      ≤ 3 * top_k := by
  simp only [generate_remediation_plan]
  rw [List.length_take]
  omega

/-! ### Claim C6: per-article selection and the urgency sort -/

theorem pyMaxInt_eq (a b : ℤ) : pyMaxInt a b = max a b := by
  unfold pyMaxInt
  split_ifs with h
  · exact (max_eq_left h).symm
  · exact (max_eq_right (le_of_not_le h)).symm

theorem pyInt_of_nonneg {q : ℚ} (h : 0 ≤ q) : pyInt q = ⌊q⌋ :=
  if_neg (not_lt.mpr h)

theorem insertRem_perm (a : Remediation) (l : List Remediation) :
    List.Perm (insertRem a l) (a :: l) := by
  induction l with
  | nil => exact List.Perm.refl _
  | cons b t ih =>
      unfold insertRem
      split_ifs
      · exact List.Perm.refl _
      · exact (ih.cons b).trans (List.Perm.swap a b t)

theorem sortRems_perm (l : List Remediation) : List.Perm (sortRems l) l := by
  induction l with
  | nil => exact List.Perm.refl _
  | cons a t ih => exact (insertRem_perm a (sortRems t)).trans (ih.cons a)

theorem mem_insertRem {x a : Remediation} {l : List Remediation} :
    x ∈ insertRem a l ↔ x = a ∨ x ∈ l := by
  rw [(insertRem_perm a l).mem_iff, List.mem_cons]

theorem insertRem_pairwise {a : Remediation} {l : List Remediation}
    (h : l.Pairwise (fun x y => urgencyRank x ≤ urgencyRank y)) :
    (insertRem a l).Pairwise (fun x y => urgencyRank x ≤ urgencyRank y) := by
  induction l with
  | nil => simp [insertRem]
  | cons b t ih =>
      rw [List.pairwise_cons] at h
      unfold insertRem
      split_ifs with hab
      · refine List.Pairwise.cons ?_ (List.Pairwise.cons h.1 h.2)
        intro x hx
        rcases List.mem_cons.mp hx with rfl | hxt
        · exact hab
        · exact le_trans hab (h.1 x hxt)
      · refine List.Pairwise.cons ?_ (ih h.2)
        intro x hx
        rcases mem_insertRem.mp hx with rfl | hxt
        · exact le_of_lt (lt_of_not_le hab)
        · exact h.1 x hxt

theorem sortRems_pairwise (l : List Remediation) :
    (sortRems l).Pairwise (fun x y => urgencyRank x ≤ urgencyRank y) := by
  induction l with
  | nil => exact List.Pairwise.nil
  | cons a t ih => exact insertRem_pairwise ih

theorem filter_insertRem (a : Remediation) (l : List Remediation) (u : ℕ) :
    (insertRem a l).filter (fun r => urgencyRank r == u) =
      if urgencyRank a == u then
        a :: l.filter (fun r => urgencyRank r == u)
      else l.filter (fun r => urgencyRank r == u) := by
  induction l with
  | nil =>
      by_cases hu : urgencyRank a == u <;> simp [insertRem, List.filter, hu]
  | cons b t ih =>
      unfold insertRem
      by_cases hab : urgencyRank a ≤ urgencyRank b
      · rw [if_pos hab]
        by_cases hu : urgencyRank a == u <;> simp [List.filter, hu]
      · rw [if_neg hab]
        have hba : urgencyRank b < urgencyRank a := lt_of_not_le hab
        by_cases hu : urgencyRank a == u
        · have hbu : ¬(urgencyRank b == u) := by
            rw [beq_iff_eq] at hu ⊢
            omega
          simp [List.filter, hbu, ih, hu]
        · by_cases hbu : urgencyRank b == u <;>
            simp [List.filter, hbu, ih, hu]

theorem filter_sortRems (l : List Remediation) (u : ℕ) :
    (sortRems l).filter (fun r => urgencyRank r == u) =
      l.filter (fun r => urgencyRank r == u) := by
  induction l with
  | nil => rfl
  | cons a t ih =>
      show (insertRem a (sortRems t)).filter _ = _
      rw [filter_insertRem]
      by_cases hu : urgencyRank a == u <;> simp [List.filter, hu, ih]

/-- C6: for a nonnegative article score the per-article selection takes
the first max(1, floor(score * top_k)) entries of the urgency-sorted
catalog list, and that sort is a permutation, is nondecreasing in urgency
rank (high before medium before low), and is stable: entries of equal
urgency rank keep their catalog order. -/
theorem select_for_article_spec (tmpl : ArticleTemplate) (s : ℚ) (k : ℕ)
    (hs : 0 ≤ s) :
    (selectForArticle tmpl s k =
      (sortRems tmpl.remediations).take (max 1 ⌊s * (k : ℚ)⌋).toNat)
    ∧ List.Perm (sortRems tmpl.remediations) tmpl.remediations
    ∧ (sortRems tmpl.remediations).Pairwise
        (fun x y => urgencyRank x ≤ urgencyRank y)
    ∧ (∀ u : ℕ, (sortRems tmpl.remediations).filter (fun r => urgencyRank r == u) =
        tmpl.remediations.filter (fun r => urgencyRank r == u)) := by
  refine ⟨?_, sortRems_perm _, sortRems_pairwise _, fun u => filter_sortRems _ u⟩
  unfold selectForArticle
  rw [pyMaxInt_eq, pyInt_of_nonneg (mul_nonneg hs (by positivity))]

/-- Witness for C6 at a concrete input. -/
theorem select_for_article_spec_witness :
    ((0 : ℚ) ≤ 0)
    ∧ ((selectForArticle {} 0 3 =
        (sortRems ({} : ArticleTemplate).remediations).take (max 1 ⌊(0 : ℚ) * (3 : ℚ)⌋).toNat)
      ∧ List.Perm (sortRems ({} : ArticleTemplate).remediations) ({} : ArticleTemplate).remediations
      ∧ (sortRems ({} : ArticleTemplate).remediations).Pairwise
          (fun x y => urgencyRank x ≤ urgencyRank y)
      ∧ (∀ u : ℕ,
          (sortRems ({} : ArticleTemplate).remediations).filter
              (fun r => urgencyRank r == u) =
            ({} : ArticleTemplate).remediations.filter (fun r => urgencyRank r == u))) :=
  ⟨le_refl 0, select_for_article_spec {} 0 3 (le_refl 0)⟩

/-! ### Claim C4: documentation gap detection -/

/-- A concrete low-risk intake form whose data sheet is in progress. -/
def sampleIntake : AISystemIntake :=
  { system_name := "Warehouse Forecaster"
    team_name := "Operations"
    project_owner := "ops@example.com"
    sector := Sector.logistics
    use_case_description := "Demand forecasting for warehouse inventory planning."
    user_types := [UserType.employees]
    data_types := [DataType.anonymous_data]
    decision_impacts := [DecisionImpact.operational_efficiency]
    oversight_level := OversightLevel.human_final_decision
    docs := { data_sheet := DocumentationStatus.in_progress
              model_card := DocumentationStatus.complete
              risk_assessment := DocumentationStatus.complete
              technical_docs := DocumentationStatus.complete } }

/-- Counterexample to C4 as stated: the sample form's data sheet status is
not "complete", yet the data-sheet gap is not reported, because the code
flags only NOT_STARTED and NEEDS_UPDATE and lets IN_PROGRESS pass. -/
theorem documentation_gaps_counterexample :
    sampleIntake.docs.data_sheet ≠ DocumentationStatus.complete
    ∧ "Data Sheet / Data Governance Documentation" ∉
        compute_documentation_gaps sampleIntake := by
  decide

theorem mem_ite_singleton {x n : String} {c : Prop} [Decidable c] :
    (x ∈ if c then [n] else ([] : List String)) ↔ c ∧ x = n := by
  split_ifs with h <;> simp [h]

theorem mem_map_snd_filter_cons {s : DocumentationStatus} {n x : String}
    {rest : List (DocumentationStatus × String)}
    {p : DocumentationStatus × String → Bool} :
    (x ∈ (((s, n) :: rest).filter p).map Prod.snd) ↔
      (p (s, n) = true ∧ x = n) ∨ x ∈ (rest.filter p).map Prod.snd := by
  by_cases hp : p (s, n) <;> simp [List.filter_cons, hp]

/-- C4 amended: a core artifact is reported as a gap exactly when its
status is NOT_STARTED or NEEDS_UPDATE (IN_PROGRESS is not reported); the
bias-audit gap is reported exactly when biometric or health data is
processed and the bias audit is not complete; the monitoring-dashboard gap
exactly when the system is fully automated and the dashboard is not
complete. -/
theorem documentation_gaps_characterization (intake : AISystemIntake) :
    ("Data Sheet / Data Governance Documentation" ∈
        compute_documentation_gaps intake ↔
      intake.docs.data_sheet = DocumentationStatus.not_started
      ∨ intake.docs.data_sheet = DocumentationStatus.needs_update)
    ∧ ("Model Card / Technical Documentation" ∈
        compute_documentation_gaps intake ↔
      intake.docs.model_card = DocumentationStatus.not_started
      ∨ intake.docs.model_card = DocumentationStatus.needs_update)
    ∧ ("Risk Assessment Documentation" ∈
        compute_documentation_gaps intake ↔
      intake.docs.risk_assessment = DocumentationStatus.not_started
      ∨ intake.docs.risk_assessment = DocumentationStatus.needs_update)
    ∧ ("Technical System Documentation" ∈
        compute_documentation_gaps intake ↔
      intake.docs.technical_docs = DocumentationStatus.not_started
      ∨ intake.docs.technical_docs = DocumentationStatus.needs_update)
    ∧ ("Bias Audit (required for sensitive data)" ∈
        compute_documentation_gaps intake ↔
      (DataType.biometrics ∈ intake.data_types
        ∨ DataType.health_data ∈ intake.data_types)
      ∧ intake.docs.bias_audit ≠ DocumentationStatus.complete)
    ∧ ("Monitoring Dashboard (required for automated systems)" ∈
        compute_documentation_gaps intake ↔
      intake.oversight_level = OversightLevel.fully_automated
      ∧ intake.docs.monitoring_dashboard ≠ DocumentationStatus.complete) := by
  refine ⟨?_, ?_, ?_, ?_, ?_, ?_⟩ <;>
    simp [compute_documentation_gaps, List.mem_append, mem_ite_singleton,
      mem_map_snd_filter_cons, List.filter_nil, beq_iff_eq]

/-! ### Claim C7: risk categorization and the ML blend -/

/-- C7: the assigned risk category follows the fixed thresholds on the
final score (at least 0.6 high, at least 0.4 medium, otherwise low), and
with a supplied ML scalar the final score is 0.4 * ml + 0.6 * rule. -/
theorem risk_category_and_blend (intake : AISystemIntake) (ml : ℚ)
    (mlo : Option ℚ) (rem : Option (List PlanItem)) (now : String) :
    ((assess_intake_form intake mlo rem now).risk_category =
      if 0.6 ≤ finalScore intake mlo then "high_risk"
      else if 0.4 ≤ finalScore intake mlo then "medium_risk"
      else "low_risk")
    ∧ finalScore intake (some ml) = 0.4 * ml + 0.6 * (compute_base_risk_score intake).1 := by
  constructor
  · show (categorize (finalScore intake mlo)).1 = _
    unfold categorize
    split_ifs <;> rfl
  · rfl

/-! ### Claim C8: safeguard flags never increase the score -/

theorem clampChain_mono {E r1 r2 : ℚ} (h : r2 ≤ r1) (c : Prop) [Decidable c] :
    (1 : ℚ) ⊓ (0 ⊔ (if c then 1 ⊓ ((0 ⊔ (E - r1)) + 0.15) else 0 ⊔ (E - r1)))
    ≤ 1 ⊓ (0 ⊔ (if c then 1 ⊓ ((0 ⊔ (E - r2)) + 0.15) else 0 ⊔ (E - r2))) := by
  have hE : E - r1 ≤ E - r2 := by linarith
  have h1 : (0:ℚ) ⊔ (E - r1) ≤ 0 ⊔ (E - r2) := max_le_max (le_refl 0) hE
  split_ifs with hc
  · exact min_le_min (le_refl 1)
      (max_le_max (le_refl 0) (min_le_min (le_refl 1) (by linarith)))
  · exact min_le_min (le_refl 1) (max_le_max (le_refl 0) h1)

/-- C8: of two otherwise identical intake forms, the one with both the
opt-out and appeal flags set receives a rule-based risk score less than or
equal to the score of the other form. -/
theorem safeguard_monotone (intake : AISystemIntake) (b1 b2 : Bool) :
    (compute_base_risk_score
      { intake with can_users_opt_out := true, appeal_mechanism := true }).1
    ≤ (compute_base_risk_score
      { intake with can_users_opt_out := b1, appeal_mechanism := b2 }).1 := by
  obtain ⟨nm, ver, team, owner, sector, ucd, uts, dts, dis, ol, o1, a1, docs⟩ := intake
  simp only [compute_base_risk_score, pyMin_eq, pyMax2_eq, if_true]
  apply clampChain_mono
  cases b1 <;> cases b2 <;> norm_num

/-! ### Claim C3: determinism across repeated calls -/

/-- Counterexample to C3 as stated: two calls of assess_intake_form on
identical inputs but at different wall-clock times return different
responses, because the assessment timestamp (and the hashed assessment
identifier) incorporate the call time. -/
theorem assess_not_bit_identical :
    assess_intake_form sampleIntake none none "2024-01-01T00:00:00"
      ≠ assess_intake_form sampleIntake none none "2024-01-01T00:00:01" := by
  intro h
  have h2 := congrArg IntakeAssessmentResponse.assessment_timestamp h
  simp only [assess_intake_form] at h2
  exact absurd h2 (by decide)

/-- C3 amended: rule_signal, fuse_model_and_rules and
generate_remediation_plan are pure functions of their arguments (they take
no call-time input in this embedding), and assess_intake_form is
deterministic in every field except assessment_id and
assessment_timestamp: stripped of those two fields, its output is
independent of the call time, and the timestamp field is exactly the
call-time string. -/
theorem assess_deterministic_up_to_time (intake : AISystemIntake)
    (mlo : Option ℚ) (rem : Option (List PlanItem)) (t1 t2 : String) :
    stripTemporal (assess_intake_form intake mlo rem t1) =
      stripTemporal (assess_intake_form intake mlo rem t2)
    ∧ (assess_intake_form intake mlo rem t1).assessment_timestamp = t1 := by
  constructor
  · simp only [assess_intake_form, stripTemporal]
  · rfl

end AIAudit
